import Mathlib

/-!
Shallow embedding of a small moderngl-based 3D renderer
(`texture.py`, `light.py`, `model.py`, `scene.py`, `main.py`)
and proofs about its texture cache, light construction, cube geometry,
render sequencing and engine quit handling.

GPU handles are modelled as natural numbers handed out by an allocation
counter; every `ctx.texture(...)` call in the source allocates a fresh
handle.  External library calls (glm rotation, image decoding, the GL
draw call) are kept abstract: rotation is a function parameter, draws
and uniform writes are recorded as events.
-/

namespace ModernGL

/-- Keys of the texture dictionary in `texture.py`: Python ints `0,1,2`
and the string `'cat'`. -/
inductive TexKey
  | num (n : Nat)
  | name (s : String)
deriving DecidableEq, BEq

/-- State of the `Texture` cache: the key-to-handle dictionary in insertion
order, the next fresh GPU handle, the log of `ctx.texture` allocations
`(handle, path)`, and the log of `release()` calls. -/
structure TexState where
  textures : List (TexKey × Nat)
  nextHandle : Nat
  loads : List (Nat × String)
  released : List Nat
deriving DecidableEq

/-- `Texture.get_texture(path)` from `texture.py`: decodes the image at
`path` and uploads it via `ctx.texture`, allocating a fresh GPU texture
handle each call (mipmapping and filtering do not affect identity). -/
def Texture.get_texture (s : TexState) (path : String) : Nat × TexState :=
  (s.nextHandle,
    { s with
      nextHandle := s.nextHandle + 1
      loads := s.loads ++ [(s.nextHandle, path)] })

/-- Python dict assignment `self.textures[k] = h` (all keys here are new). -/
def Texture.store (s : TexState) (k : TexKey) (h : Nat) : TexState :=
  { s with textures := s.textures ++ [(k, h)] }

/-- `Texture.__init__` from `texture.py`: loads `textures/stone.jpg` under
keys `0`, `1` and `2` (three separate `get_texture` calls) and
`objects/cat/20430_cat_diff_v1.jpg` under key `'cat'`. -/
def Texture.init : TexState :=
  let s0 : TexState := ⟨[], 0, [], []⟩
  let p0 := Texture.get_texture s0 "textures/stone.jpg"
  let s1 := Texture.store p0.2 (TexKey.num 0) p0.1
  let p1 := Texture.get_texture s1 "textures/stone.jpg"
  let s2 := Texture.store p1.2 (TexKey.num 1) p1.1
  let p2 := Texture.get_texture s2 "textures/stone.jpg"
  let s3 := Texture.store p2.2 (TexKey.num 2) p2.1
  let p3 := Texture.get_texture s3 "objects/cat/20430_cat_diff_v1.jpg"
  Texture.store p3.2 (TexKey.name "cat") p3.1

/-- Python dict lookup `self.textures[k]`: `some handle` when registered,
`none` when the key is absent (a `KeyError`, subclass of `LookupError`). -/
def Texture.get (s : TexState) (k : TexKey) : Option Nat :=
  (s.textures.find? (fun p => p.1 == k)).map (fun p => p.2)

/-- How many times `path` was loaded (fresh GPU allocations for it). -/
def Texture.loadCountFor (s : TexState) (path : String) : Nat :=
  (s.loads.filter (fun p => p.2 == path)).length

/-- `Texture.destroy` from `texture.py`:
`[tex.release() for tex in self.textures.values()]` — releases every
handle currently in the dictionary; the dictionary itself is unchanged
and no released flag exists. -/
def Texture.destroy (s : TexState) : TexState :=
  { s with released := s.released ++ s.textures.map (fun p => p.2) }

/-- How many times handle `h` has been released. -/
def Texture.releaseCountFor (s : TexState) (h : Nat) : Nat :=
  (s.released.filter (fun x => x == h)).length

/-- 3D vector with exact rational components (stands for `glm.vec3`). -/
structure Vec3 where
  x : ℚ
  y : ℚ
  z : ℚ
deriving DecidableEq

/-- Componentwise scalar multiple, `a * v` on a `glm.vec3`. -/
def Vec3.smul (a : ℚ) (v : Vec3) : Vec3 :=
  ⟨a * v.x, a * v.y, a * v.z⟩

/-- The `Light` object of `light.py`: position, color, and the three
derived intensities computed in `__init__`. -/
structure Light where
  position : Vec3
  color : Vec3
  Ia : Vec3
  Id : Vec3
  Is : Vec3
deriving DecidableEq

/-- `Light.__init__(position, color)` from `light.py`: stores position and
color and computes `Ia = 0.1*color`, `Id = 0.8*color`, `Is = 0.5*color`.
The class has no other method, so no field changes after construction. -/
def Light.make (position color : Vec3) : Light :=
  { position := position
    color := color
    Ia := Vec3.smul (1/10) color
    Id := Vec3.smul (8/10) color
    Is := Vec3.smul (5/10) color }

/-- The default arguments `position=(3, 3, -3)`, `color=(1, 1, 1)`. -/
def Light.makeDefault : Light :=
  Light.make ⟨3, 3, -3⟩ ⟨1, 1, 1⟩

/-- A 4x4 matrix as a column-major list of columns of rationals,
as `glm.mat4` stores it. -/
abbrev Mat4 : Type := List (List ℚ)

/-- `glm.mat4()`: the identity matrix, column-major. -/
def mat4identity : Mat4 :=
  [[1, 0, 0, 0], [0, 1, 0, 0], [0, 0, 1, 0], [0, 0, 0, 1]]

/-- The translation part of a model matrix: the first three entries of the
fourth column (`m[3]` in glm's column-major layout). -/
def translationOf (m : Mat4) : List ℚ :=
  (m.getD 3 []).take 3

/-- `Cube.get_model_matrix` from `model.py`: returns `glm.mat4()`, the
identity — no translation is ever applied. -/
def Cube.get_model_matrix : Mat4 :=
  mat4identity

/-- The parameter list of `Cube.__init__` in `model.py` (besides `self`):
only `app`; there is no `pos` parameter. -/
def Cube.initParams : List String :=
  ["app"]

/-- Whether a Python call binds: every keyword argument must name a
declared parameter, else the call raises `TypeError`. -/
def callBindsOk (params kwargs : List String) : Bool :=
  kwargs.all (fun k => params.contains k)

/-- `range(start, stop, step)` of Python for a positive step. -/
def pyRange (start stop step : Int) : List Int :=
  if step ≤ 0 then []
  else (List.range ((stop - start + step - 1) / step).toNat).map
    (fun i => start + step * Int.ofNat i)

/-- The grid positions built by `Scene.load` in `scene.py`:
`n, s = 80, 2`; for `x` and `z` in `range(-n, n, s)` a cube is requested
at `pos=(x, -s, z)`. -/
def Scene.gridPositions : List (Int × Int × Int) :=
  (pyRange (-80) 80 2).flatMap
    (fun x => (pyRange (-80) 80 2).map (fun z => (x, -2, z)))

/-- The state a `Cube` of `model.py` carries across frames that matters to
rendering: its stored model matrix `self.m_model`. -/
structure CubeState where
  m_model : Mat4
deriving DecidableEq

/-- The state of a `Cube` right after `__init__`:
`self.m_model = self.get_model_matrix()`. -/
def Cube.initState : CubeState :=
  ⟨Cube.get_model_matrix⟩

/-- A value written to a shader uniform: a matrix or an integer
(the texture unit binding `u_texture_0 = 0`). -/
inductive UniformValue
  | mat (m : Mat4)
  | int (n : Int)
deriving DecidableEq

/-- `Cube.update` from `model.py`:
`m_model = glm.rotate(self.m_model, self.app.time, glm.vec3(0, 1, 0))`
into a local, then `self.shader_program['m_model'].write(m_model)`.
The rotation itself is glm library code, passed in as `rotate`; the
stored state is returned unchanged together with the single uniform
write performed. -/
def Cube.update (rotate : Mat4 → ℚ → Vec3 → Mat4) (time : ℚ)
    (s : CubeState) : CubeState × List (String × UniformValue) :=
  (s, [("m_model", UniformValue.mat (rotate s.m_model time ⟨0, 1, 0⟩))])

/-- `Cube.on_init` from `model.py`: the uniform writes done once at
construction — texture unit, projection, view, and model matrix. -/
def Cube.on_init (proj view : Mat4) (s : CubeState) :
    List (String × UniformValue) :=
  [("u_texture_0", UniformValue.int 0),
   ("m_proj", UniformValue.mat proj),
   ("m_view", UniformValue.mat view),
   ("m_model", UniformValue.mat s.m_model)]

/-- `Cube.render` from `model.py` as a state transformer:
`self.update()` then `self.vao.render()`; the draw call does not touch
the cube's state, so the frame effect on state is that of `update`. -/
def Cube.renderStep (rotate : Mat4 → ℚ → Vec3 → Mat4) (time : ℚ)
    (s : CubeState) : CubeState × List (String × UniformValue) :=
  Cube.update rotate time s

/-- Run a sequence of `render()` calls at the given times, threading the
cube's stored state. -/
def Cube.runRenders (rotate : Mat4 → ℚ → Vec3 → Mat4) :
    List ℚ → CubeState → CubeState
  | [], s => s
  | t :: ts, s => Cube.runRenders rotate ts (Cube.renderStep rotate t s).1

/-- An observable event of a frame: a uniform update for object `i`
(its `update()` call) or the draw call for object `i`. -/
inductive RenderEvent
  | update (i : Nat)
  | draw (i : Nat)
deriving DecidableEq

/-- `Cube.render` as an event trace: `update()` then the draw call. -/
def Cube.renderTrace (i : Nat) : List RenderEvent :=
  [RenderEvent.update i, RenderEvent.draw i]

/-- `Scene.render` from `scene.py`: `for obj in self.objects: obj.render()`
— the traces of the objects in list order, concatenated. -/
def Scene.renderTrace (objs : List Nat) : List RenderEvent :=
  objs.flatMap Cube.renderTrace

/-- `Scene.addObject` from `scene.py`: appends to the object list. -/
def Scene.addObject (objs : List Nat) (o : Nat) : List Nat :=
  objs ++ [o]

/-- The draw calls of a trace, in order, tagged by object. -/
def drawsOf (t : List RenderEvent) : List Nat :=
  t.filterMap (fun e =>
    match e with
    | RenderEvent.draw i => some i
    | RenderEvent.update _ => none)

/-- A pygame event as `GraphicsEngine.check_events` in `main.py`
inspects it: a window-close (`pg.QUIT`), a key press, or anything else. -/
inductive PgEvent
  | quit
  | keydown (key : Nat)
  | other
deriving DecidableEq

/-- `pg.K_ESCAPE`. -/
def K_ESCAPE : Nat := 27

/-- The quit condition of `check_events`:
`event.type == pg.QUIT or (event.type == pg.KEYDOWN and event.key == pg.K_ESCAPE)`. -/
def isQuitSignal : PgEvent → Bool
  | PgEvent.quit => true
  | PgEvent.keydown k => k == K_ESCAPE
  | PgEvent.other => false

/-- A side effect performed by the engine while quitting. -/
inductive EngineAction
  | meshDestroy
  | sceneDestroy
  | pgQuit
  | sysExit (code : Nat)
deriving DecidableEq

/-- `GraphicsEngine.check_events` from `main.py`: iterates the polled
events; on the first quit signal it runs `self.mesh.destroy()`,
`pg.quit()` and `sys.exit()` (exit code 0) — the `self.scene.destroy()`
call is commented out, so no scene action is performed. `sys.exit`
raises, so nothing after the first quit signal runs. -/
def GraphicsEngine.check_events : List PgEvent → List EngineAction
  | [] => []
  | e :: rest =>
    if isQuitSignal e then
      [EngineAction.meshDestroy, EngineAction.pgQuit, EngineAction.sysExit 0]
    else
      GraphicsEngine.check_events rest

/-- The 8 corner positions of the cube in `Cube.get_vertex_data`. -/
def cubeVertices : List (List ℚ) :=
  [[-1, -1, 1], [1, -1, 1], [1, 1, 1], [-1, 1, 1],
   [-1, 1, -1], [-1, -1, -1], [1, -1, -1], [1, 1, -1]]

/-- The 12 corner-index triangles of `Cube.get_vertex_data`. -/
def cubeIndices : List (Nat × Nat × Nat) :=
  [(0, 2, 3), (0, 1, 2), (1, 7, 2),
   (1, 6, 7), (6, 5, 4), (4, 7, 6),
   (3, 4, 5), (3, 5, 0), (3, 7, 4),
   (3, 2, 7), (0, 6, 1), (0, 5, 7)]

/-- The 4 texture coordinates (`text_cord`) of `Cube.get_vertex_data`. -/
def textCord : List (List ℚ) :=
  [[0, 0], [1, 0], [1, 1], [0, 1]]

/-- The 12 texture-coordinate index triangles (`text_cord_indices`). -/
def textCordIndices : List (Nat × Nat × Nat) :=
  [(0, 2, 3), (0, 1, 2),
   (0, 2, 3), (0, 1, 2),
   (0, 1, 2), (2, 3, 0),
   (2, 3, 0), (2, 0, 1),
   (0, 2, 3), (0, 1, 2),
   (3, 1, 2), (3, 0, 1)]

/-- `Cube.get_data(vertices, indices)` from `model.py`:
`[vertices[i] for triangle in indices for i in triangle]`. -/
def Cube.get_data (vertices : List (List ℚ))
    (indices : List (Nat × Nat × Nat)) : List (List ℚ) :=
  indices.flatMap (fun t =>
    [vertices.getD t.1 [], vertices.getD t.2.1 [], vertices.getD t.2.2 []])

/-- `Cube.get_vertex_data` from `model.py`:
`np.hstack((text_cord_data, vertex_data))` — row-wise concatenation of
the expanded texture coordinates with the expanded positions. -/
def Cube.get_vertex_data : List (List ℚ) :=
  List.zipWith (fun a b => a ++ b)
    (Cube.get_data textCord textCordIndices)
    (Cube.get_data cubeVertices cubeIndices)

/-- C1, counterexample: the claim that each distinct path is loaded at
most once fails — `Texture.__init__` loads `textures/stone.jpg` three
times (keys 0, 1, 2), and the two loads under keys 0 and 1 return
distinct GPU handles. -/
theorem texture_same_path_duplicate_alloc :
    ¬ Texture.loadCountFor Texture.init "textures/stone.jpg" ≤ 1 ∧
    Texture.get Texture.init (TexKey.num 0) ≠
      Texture.get Texture.init (TexKey.num 1) := by
  decide

/-- C1, amended: each `get_texture` call performs a fresh load and GPU
allocation — the constructed cache holds four distinct handles 0..3 for
its four keys, with the stone path loaded three times and the cat path
once; looking up an unregistered key fails (a `LookupError`). -/
theorem texture_cache_contents :
    Texture.get Texture.init (TexKey.num 0) = some 0 ∧
    Texture.get Texture.init (TexKey.num 1) = some 1 ∧
    Texture.get Texture.init (TexKey.num 2) = some 2 ∧
    Texture.get Texture.init (TexKey.name "cat") = some 3 ∧
    Texture.loadCountFor Texture.init "textures/stone.jpg" = 3 ∧
    Texture.loadCountFor Texture.init "objects/cat/20430_cat_diff_v1.jpg" = 1 ∧
    Texture.get Texture.init (TexKey.num 7) = none := by
  decide

/-- C5, counterexample: the claim that a second release-all does not
re-release any handle fails — `destroy` tracks no released flag, so a
second `destroy` releases handle 0 a second time. -/
theorem texture_double_destroy_rereleases :
    Texture.releaseCountFor (Texture.destroy Texture.init) 0 = 1 ∧
    Texture.releaseCountFor
      (Texture.destroy (Texture.destroy Texture.init)) 0 = 2 := by
  decide

/-- C5, amended: `destroy` releases every texture the cache holds, once
per call; since no released flag exists, a second call releases all four
handles again. -/
theorem texture_destroy_releases_all :
    (Texture.destroy Texture.init).released = [0, 1, 2, 3] ∧
    (Texture.destroy (Texture.destroy Texture.init)).released =
      [0, 1, 2, 3, 0, 1, 2, 3] := by
  decide

/-- C9: a `Light` built from `(position, color)` has ambient intensity
`0.1 * color`, diffuse `0.8 * color` and specular `0.5 * color`, and its
stored position and color are exactly the constructor arguments; the
class has no mutating method, so these fields are fixed at
construction. -/
theorem light_intensity_factors :
    ∀ (p c : Vec3),
      (Light.make p c).Ia = Vec3.smul (1/10) c ∧
      (Light.make p c).Id = Vec3.smul (8/10) c ∧
      (Light.make p c).Is = Vec3.smul (5/10) c ∧
      (Light.make p c).position = p ∧
      (Light.make p c).color = c := by
  intro p c
  exact ⟨rfl, rfl, rfl, rfl, rfl⟩

/-- C6: `get_vertex_data` produces exactly 36 rows (12 index triangles of
3 corners), each row a 2-component texture coordinate followed by a
3-component position (5 scalars), and the generation is a pure function
of its fixed inputs, so regenerating yields identical output. -/
theorem cube_vertex_data_shape :
    Cube.get_vertex_data.length = 36 ∧
    cubeIndices.length = 12 ∧
    (Cube.get_data textCord textCordIndices).length = 36 ∧
    (Cube.get_data textCord textCordIndices).all
      (fun r => r.length == 2) = true ∧
    (Cube.get_data cubeVertices cubeIndices).all
      (fun r => r.length == 3) = true ∧
    Cube.get_vertex_data.all (fun r => r.length == 5) = true ∧
    Cube.get_vertex_data = Cube.get_vertex_data := by
  decide

/-- C2, code evidence: `Scene.load` requests cubes with a `pos` keyword,
but `Cube.__init__` declares no such parameter, so the call cannot bind
(`TypeError`); moreover `Cube.get_model_matrix` returns the identity,
whose translation column is `(0,0,0)`, while the first grid cell sits at
`(-80, -2, -80)`. -/
theorem cube_pos_param_mismatch :
    callBindsOk Cube.initParams ["pos"] = false ∧
    translationOf Cube.get_model_matrix = [0, 0, 0] ∧
    Scene.gridPositions.head? = some (-80, -2, -80) := by
  refine ⟨rfl, rfl, ?_⟩
  decide

/-- C3, counterexample: the claim that `update()` writes projection, view,
model and texture-unit uniforms fails — a concrete `update` call writes
only the `m_model` uniform, not `m_proj`. -/
theorem cube_update_writes_only_model :
    ((Cube.update (fun m _ _ => m) 1 Cube.initState).2.map Prod.fst) =
      ["m_model"] ∧
    "m_proj" ∉
      ((Cube.update (fun m _ _ => m) 1 Cube.initState).2.map Prod.fst) := by
  decide

/-- C3, amended: each `update()` computes a local matrix by rotating the
stored model matrix about the vertical axis `(0,1,0)` by the current
time and writes only the `m_model` uniform, leaving the stored state
unchanged; the texture-unit, projection, view and model uniforms are
written once by `on_init` at construction. -/
theorem cube_update_uniform_writes :
    ∀ (rotate : Mat4 → ℚ → Vec3 → Mat4) (time : ℚ) (s : CubeState)
      (proj view : Mat4),
      (Cube.update rotate time s).1 = s ∧
      (Cube.update rotate time s).2 =
        [("m_model", UniformValue.mat (rotate s.m_model time ⟨0, 1, 0⟩))] ∧
      (Cube.on_init proj view s).map Prod.fst =
        ["u_texture_0", "m_proj", "m_view", "m_model"] := by
  intro rotate time s proj view
  exact ⟨rfl, rfl, rfl⟩

/-- C10: `update()`/`render()` never mutate the stored model matrix —
after any number of renders at any times, the stored matrix is still the
identity set at construction, and the uniform written at time `t` is the
same as it would be on a freshly constructed cube, depending only on
`t`, not on the render history. -/
theorem cube_model_matrix_never_mutated :
    ∀ (rotate : Mat4 → ℚ → Vec3 → Mat4) (times : List ℚ) (t : ℚ),
      (Cube.runRenders rotate times Cube.initState).m_model =
        Cube.get_model_matrix ∧
      (Cube.update rotate t (Cube.runRenders rotate times Cube.initState)).2 =
        (Cube.update rotate t Cube.initState).2 := by
  intro rotate times t
  have h : Cube.runRenders rotate times Cube.initState = Cube.initState := by
    induction times with
    | nil => rfl
    | cons a as ih => exact ih
  rw [h]
  exact ⟨rfl, rfl⟩

/-- C7: in a scene render, the trace at positions `2k` and `2k+1` is the
`k`-th object's uniform update immediately followed by that same
object's draw call — updates always precede their draw and are never
interleaved with another object's events. -/
theorem update_precedes_draw_per_object :
    ∀ (objs : List Nat) (k : Nat), k < objs.length →
      (Scene.renderTrace objs).get? (2 * k) =
        some (RenderEvent.update (objs.getD k 0)) ∧
      (Scene.renderTrace objs).get? (2 * k + 1) =
        some (RenderEvent.draw (objs.getD k 0)) := by
  intro objs
  induction objs with
  | nil =>
    intro k h
    exact absurd h (Nat.not_lt_zero k)
  | cons o rest ih =>
    intro k h
    cases k with
    | zero =>
      refine ⟨?_, ?_⟩
      · rfl
      · rfl
    | succ k =>
      have h2 : k < rest.length := Nat.lt_of_succ_lt_succ h
      have hr := ih k h2
      have e1 : 2 * (k + 1) = 2 * k + 1 + 1 := by ring
      have hc : Scene.renderTrace (o :: rest) =
          RenderEvent.update o :: RenderEvent.draw o ::
            Scene.renderTrace rest := rfl
      constructor
      · rw [hc, e1, List.get?_cons_succ, List.get?_cons_succ,
          List.getD_cons_succ]
        exact hr.1
      · rw [hc, e1, List.get?_cons_succ, List.get?_cons_succ,
          List.getD_cons_succ]
        exact hr.2

/-- C7, witness: instantiated on the two-object scene `[4, 9]` at
`k = 1`. -/
theorem update_precedes_draw_witness :
    1 < ([4, 9] : List Nat).length ∧
    ((Scene.renderTrace [4, 9]).get? (2 * 1) =
        some (RenderEvent.update (([4, 9] : List Nat).getD 1 0)) ∧
      (Scene.renderTrace [4, 9]).get? (2 * 1 + 1) =
        some (RenderEvent.draw (([4, 9] : List Nat).getD 1 0))) :=
  ⟨by decide, update_precedes_draw_per_object [4, 9] 1 (by decide)⟩

/-- C8: `Scene.render` draws each object of the list exactly once, in
insertion order (the order `addObject` appends in), with no culling,
sorting or batching — the draw calls of the trace are exactly the object
list, so draw-call count equals object count. -/
theorem scene_draw_calls_match_objects :
    ∀ (objs : List Nat) (o : Nat),
      drawsOf (Scene.renderTrace objs) = objs ∧
      (drawsOf (Scene.renderTrace objs)).length = objs.length ∧
      Scene.addObject objs o = objs ++ [o] := by
  intro objs o
  have h : drawsOf (Scene.renderTrace objs) = objs := by
    induction objs with
    | nil => rfl
    | cons a as ih =>
      have hc : Scene.renderTrace (a :: as) =
          RenderEvent.update a :: RenderEvent.draw a ::
            Scene.renderTrace as := rfl
      rw [hc]
      show drawsOf (RenderEvent.update a :: RenderEvent.draw a ::
        Scene.renderTrace as) = a :: as
      simp [drawsOf, List.filterMap_cons] at ih ⊢
      exact ih
  exact ⟨h, by rw [h], rfl⟩

/-- C4, counterexample: the claim that a quit signal releases all owned
resources fails — on a window-close event the engine only destroys the
mesh, quits pygame and exits; no scene teardown is performed (the call
is commented out in `check_events`). -/
theorem quit_does_not_release_scene :
    GraphicsEngine.check_events [PgEvent.quit] =
      [EngineAction.meshDestroy, EngineAction.pgQuit,
        EngineAction.sysExit 0] ∧
    EngineAction.sceneDestroy ∉
      GraphicsEngine.check_events [PgEvent.quit] := by
  decide

/-- C4, amended: on any quit signal (window-close or the Escape key) the
engine destroys the mesh, quits the windowing library and exits with
code 0, without releasing the scene's objects; both triggers are
recognised as quit signals. -/
theorem quit_actions_on_signal :
    ∀ (e : PgEvent) (rest : List PgEvent), isQuitSignal e = true →
      GraphicsEngine.check_events (e :: rest) =
        [EngineAction.meshDestroy, EngineAction.pgQuit,
          EngineAction.sysExit 0] ∧
      EngineAction.sceneDestroy ∉ GraphicsEngine.check_events (e :: rest) ∧
      isQuitSignal PgEvent.quit = true ∧
      isQuitSignal (PgEvent.keydown K_ESCAPE) = true := by
  intro e rest h
  have hc : GraphicsEngine.check_events (e :: rest) =
      [EngineAction.meshDestroy, EngineAction.pgQuit,
        EngineAction.sysExit 0] := by
    simp [GraphicsEngine.check_events, h]
  refine ⟨hc, ?_, rfl, rfl⟩
  rw [hc]
  decide

/-- C4, witness: the Escape key pressed while running triggers the quit
action sequence. -/
theorem quit_actions_witness :
    isQuitSignal (PgEvent.keydown 27) = true ∧
    (GraphicsEngine.check_events [PgEvent.keydown 27] =
        [EngineAction.meshDestroy, EngineAction.pgQuit,
          EngineAction.sysExit 0] ∧
      EngineAction.sceneDestroy ∉
        GraphicsEngine.check_events [PgEvent.keydown 27] ∧
      isQuitSignal PgEvent.quit = true ∧
      isQuitSignal (PgEvent.keydown K_ESCAPE) = true) :=
  ⟨by decide, quit_actions_on_signal (PgEvent.keydown 27) [] (by decide)⟩

end ModernGL
